import Mathlib

/-!
Shallow embedding of the watermarker repository.

The repository is a command-line watermarking tool built around a small pure
kernel in `watermark_utils.py` (opacity/tint adjustment, proportional scaling,
placement geometry) and the pipeline `add_watermark` in `add_watermark.py`
(validate dimensions, check opacity, scale, place, composite, save).

Modelling conventions:
* image dimensions and channel samples are unbounded integers (Python ints);
* Python floats (opacity, scale ratio) are modelled as exact rationals; the
  spec itself describes the arithmetic with exact floor formulas;
* Python `int(x)` is truncation toward zero, `//` is floor division, `max` is
  `max`;
* file paths are opaque identifiers (`ℕ`); decoding an image file is an
  abstract function from paths to images;
* the external library calls (PIL `resize`, `paste`, `save`) are out of the
  kernel; `resize` is modelled by its effect on the dimensions, and the
  pipeline records the sequence of abstract steps it performs so that
  ordering claims (what happens before which error) can be stated.
-/

namespace Watermarker

/-- A raster image: width, height and flat per-pixel RGBA channel sample
lists, as PIL exposes them after `convert("RGBA")` and `split()`. -/
structure Img where
  width : ℤ
  height : ℤ
  r : List ℤ
  g : List ℤ
  b : List ℤ
  alpha : List ℤ
deriving DecidableEq

/-- The five watermark positions of `enums.WatermarkPosition`. -/
inductive WatermarkPosition where
  | BOTTOM_RIGHT
  | BOTTOM_LEFT
  | TOP_RIGHT
  | TOP_LEFT
  | CENTER
deriving DecidableEq

/-- Python `int()` applied to a rational: truncation toward zero
(the numerator divided by the positive denominator, rounding toward zero). -/
def ratTrunc (q : ℚ) : ℤ := Int.tdiv q.num (q.den : ℤ)

/-- Model of `watermark_utils.adjust_opacity`: convert to RGBA (our images
already carry the four channels); when a tint color is given, replace the RGB
channels by the flat tint while keeping the alpha channel; finally map
`fun p => int (p * opacity)` over the alpha channel (`a.point(lambda p:
int(p * opacity))`). The function performs no validation of `opacity`. -/
def adjust_opacity (image : Img) (opacity : ℚ) (color : Option (ℤ × ℤ × ℤ)) : Img :=
  let image_rgba := image
  let image_rgba :=
    match color with
    | some c =>
      { image_rgba with
        r := image_rgba.r.map fun _ => c.1
        g := image_rgba.g.map fun _ => c.2.1
        b := image_rgba.b.map fun _ => c.2.2 }
    | none => image_rgba
  { image_rgba with alpha := image_rgba.alpha.map fun p : ℤ => ratTrunc ((p : ℚ) * opacity) }

/-- Model of the effect of an accepted PIL `Image.resize` call on the
dimensions: the repository only chooses the target size; the resampled
pixel content is produced by the external image library and is outside the
kernel. Pillow additionally rejects a resize whose target width or height
is below 1, raising `ValueError` with the message that height and width
must be positive; that size check is modelled by `pilResizeRun` below. -/
def pilResize (img : Img) (w h : ℤ) : Img :=
  { img with width := w, height := h }

/-- Model of the size arithmetic of `watermark_utils.scale_watermark`:
target width is `int(min(bw, bh) * scale_r)`, the scaling factor is the
float quotient `target_width / watermark_width`, the target height is
`int(watermark_height * scaling_factor)`, and the watermark is resized to
that size. The repository's own code performs no validation of `scale_r`
or of the computed size; the external resize call's size check is modelled
in `scale_watermark_run` below, while this total function gives the
computed target size together with the dimension effect of an accepted
resize. -/
def scale_watermark (target_image watermark_image : Img) (scale_r : ℚ) : Img :=
  let short_side : ℤ := min target_image.width target_image.height
  let target_watermark_width : ℤ := ratTrunc ((short_side : ℚ) * scale_r)
  let scaling_factor : ℚ := (target_watermark_width : ℚ) / (watermark_image.width : ℚ)
  let target_watermark_height : ℤ := ratTrunc ((watermark_image.height : ℚ) * scaling_factor)
  pilResize watermark_image target_watermark_width target_watermark_height

/-- Model of `watermark_utils.calculate_position`: the match over the five
positions, with Python `max(0, ...)` and floor division `// 2`. -/
def calculate_position (target_image watermark_image : Img)
    (position : WatermarkPosition) (padding : ℤ) : ℤ × ℤ :=
  match position with
  | .BOTTOM_RIGHT =>
    (max 0 (target_image.width - watermark_image.width - padding),
     max 0 (target_image.height - watermark_image.height - padding))
  | .BOTTOM_LEFT =>
    (padding, max 0 (target_image.height - watermark_image.height - padding))
  | .TOP_RIGHT =>
    (max 0 (target_image.width - watermark_image.width - padding), padding)
  | .TOP_LEFT => (padding, padding)
  | .CENTER =>
    (Int.fdiv (target_image.width - watermark_image.width) 2,
     Int.fdiv (target_image.height - watermark_image.height) 2)

/-- Model of `add_watermark.validate_image_and_watermark`: false when the
target is narrower than watermark width plus twice the padding, or shorter
than watermark height plus twice the padding; true otherwise. -/
def validate_image_and_watermark (target_image watermark_image : Img) (padding : ℤ) : Bool :=
  if target_image.width < watermark_image.width + 2 * padding
      ∨ target_image.height < watermark_image.height + 2 * padding then
    false
  else
    true

/-- The key of the `functools.lru_cache(maxsize=1)` on
`load_cached_watermark`: the full positional argument tuple
`(watermark_path, opacity, color)`. -/
structure CacheKey where
  watermark_path : ℕ
  opacity : ℚ
  color : Option (ℤ × ℤ × ℤ)
deriving DecidableEq

/-- Model of `load_cached_watermark` together with its
`lru_cache(maxsize=1)` state: the cache holds at most one (key, value) pair.
On a hit (stored key equals the argument tuple) the stored image is returned
and nothing is recomputed; otherwise the watermark file is opened, adjusted,
and the single slot is overwritten. Returns (image, new cache state,
recomputed?). `openImage` is the external image decoder. -/
def load_cached_watermark (cache : Option (CacheKey × Img)) (openImage : ℕ → Img)
    (watermark_path : ℕ) (opacity : ℚ) (color : Option (ℤ × ℤ × ℤ)) :
    Img × Option (CacheKey × Img) × Bool :=
  let key : CacheKey := ⟨watermark_path, opacity, color⟩
  match cache with
  | some kv =>
    if kv.1 = key then (kv.2, some kv, false)
    else
      let watermark_image := adjust_opacity (openImage watermark_path) opacity color
      (watermark_image, some (key, watermark_image), true)
  | none =>
    let watermark_image := adjust_opacity (openImage watermark_path) opacity color
    (watermark_image, some (key, watermark_image), true)

/-- Abstract steps performed by the `add_watermark` pipeline, in order:
open the target file, open the watermark file, adjust its opacity, scale it,
compute the position, paste, save the output. -/
inductive Ev where
  | openTarget
  | openWatermark
  | adjustOpacity
  | scaleStep
  | calcPosition
  | pasteStep
  | saveOutput
deriving DecidableEq

/-- The two error kinds raised by `add_watermark` itself (both are Python
`ValueError`s; the spec names them `SizeConstraint` and `InvalidArgument`). -/
inductive Err where
  | sizeConstraint
  | invalidArgument
deriving DecidableEq

/-- Model of the external PIL `Image.resize` call including its size check:
Pillow raises a `ValueError` (reported by this program as an error, the
invalid-argument kind) when either target dimension is below 1, before
producing any image; otherwise it returns the resized image. -/
def pilResizeRun (img : Img) (w h : ℤ) : Except Err Img :=
  if w < 1 ∨ h < 1 then Except.error Err.invalidArgument
  else Except.ok (pilResize img w h)

/-- Model of a run of `watermark_utils.scale_watermark` including the
external resize call: the same size arithmetic as `scale_watermark`, with
the computed target size handed to `pilResizeRun`, which rejects a target
width or height below 1. -/
def scale_watermark_run (target_image watermark_image : Img) (scale_r : ℚ) :
    Except Err Img :=
  let short_side : ℤ := min target_image.width target_image.height
  let target_watermark_width : ℤ := ratTrunc ((short_side : ℚ) * scale_r)
  let scaling_factor : ℚ := (target_watermark_width : ℚ) / (watermark_image.width : ℚ)
  let target_watermark_height : ℤ := ratTrunc ((watermark_image.height : ℚ) * scaling_factor)
  pilResizeRun watermark_image target_watermark_width target_watermark_height

/-- Outcome of a successful pipeline run: the scaled watermark and the
(x, y) offset at which it is pasted onto the target. -/
structure PasteResult where
  scaled : Img
  xy : ℤ × ℤ
deriving DecidableEq

/-- Model of `add_watermark.add_watermark` on a cold overlay cache (first
invocation in the process): open the target, open the watermark and adjust
its opacity (`load_cached_watermark`), then validate dimensions (raising the
size-constraint `ValueError` on failure), then check the opacity range
(raising the invalid-opacity `ValueError`), then scale, compute the
position, paste and save. Returns the list of performed steps together with
the result. The scale step is modelled by its size arithmetic
(`scale_watermark`); the external resize call's rejection of target sizes
below 1 is modelled at the scale operation itself (`scale_watermark_run`),
so the success results of this pipeline model are meaningful for runs whose
scaled size is accepted by the resize. -/
def add_watermark (target_image watermark : Img) (opacity : ℚ)
    (position : WatermarkPosition) (padding : ℤ) (watermark_scale_r : ℚ)
    (color : Option (ℤ × ℤ × ℤ)) : List Ev × Except Err PasteResult :=
  let evs : List Ev := [Ev.openTarget, Ev.openWatermark, Ev.adjustOpacity]
  let watermark_image := adjust_opacity watermark opacity color
  if validate_image_and_watermark target_image watermark_image padding = false then
    (evs, Except.error Err.sizeConstraint)
  else if 1 < opacity ∨ opacity < 0 then
    (evs, Except.error Err.invalidArgument)
  else
    let scaled := scale_watermark target_image watermark_image watermark_scale_r
    let position_x_y := calculate_position target_image scaled position padding
    (evs ++ [Ev.scaleStep, Ev.calcPosition, Ev.pasteStep, Ev.saveOutput],
      Except.ok ⟨scaled, position_x_y⟩)

/-- Modelled from the spec: the `resolvePosition` dispatch table of section
4.2, stated over raw dimensions (`bw, bh` base, `ow, oh` overlay, `p`
padding), with floor for the center division. Used to compare
`calculate_position` against the spec table. -/
def resolvePosition_spec (bw bh ow oh p : ℤ) (position : WatermarkPosition) : ℤ × ℤ :=
  match position with
  | .BOTTOM_RIGHT => (max 0 (bw - ow - p), max 0 (bh - oh - p))
  | .BOTTOM_LEFT => (p, max 0 (bh - oh - p))
  | .TOP_RIGHT => (max 0 (bw - ow - p), p)
  | .TOP_LEFT => (p, p)
  | .CENTER => (Int.fdiv (bw - ow) 2, Int.fdiv (bh - oh) 2)

/-- An image with the given dimensions and empty channel lists, used for
concrete test inputs where only the dimensions matter. -/
def mkImg (w h : ℤ) : Img := ⟨w, h, [], [], [], []⟩

/-! ## Helper lemmas -/

/-- On nonnegative rationals, Python truncation agrees with the floor. -/
theorem ratTrunc_eq_floor {q : ℚ} (h : 0 ≤ q) : ratTrunc q = ⌊q⌋ := by
  rw [ratTrunc, Rat.floor_def, Int.tdiv_eq_ediv (Rat.num_nonneg.mpr h) (by positivity)]

/-- Python truncation of an integer-valued rational is that integer. -/
theorem ratTrunc_intCast (n : ℤ) : ratTrunc (n : ℚ) = n := by
  simp [ratTrunc]

/-- `validate_image_and_watermark` in propositional form. -/
theorem validate_true_iff (t w : Img) (p : ℤ) :
    validate_image_and_watermark t w p = true ↔
      w.width + 2 * p ≤ t.width ∧ w.height + 2 * p ≤ t.height := by
  simp only [validate_image_and_watermark]
  split <;> rename_i h <;> simp <;> omega

/-- `validate_image_and_watermark` failure in propositional form. -/
theorem validate_false_iff (t w : Img) (p : ℤ) :
    validate_image_and_watermark t w p = false ↔
      (t.width < w.width + 2 * p ∨ t.height < w.height + 2 * p) := by
  simp only [validate_image_and_watermark]
  split <;> rename_i h <;> simp <;> omega

/-- Opacity adjustment does not change the image width. -/
theorem adjust_opacity_width (w : Img) (opacity : ℚ) (color : Option (ℤ × ℤ × ℤ)) :
    (adjust_opacity w opacity color).width = w.width := by
  cases color <;> rfl

/-- Opacity adjustment does not change the image height. -/
theorem adjust_opacity_height (w : Img) (opacity : ℚ) (color : Option (ℤ × ℤ × ℤ)) :
    (adjust_opacity w opacity color).height = w.height := by
  cases color <;> rfl

/-- The alpha channel after `adjust_opacity`: every sample multiplied by the
opacity and truncated, regardless of the tint color. -/
theorem adjust_opacity_alpha (w : Img) (opacity : ℚ) (color : Option (ℤ × ℤ × ℤ)) :
    (adjust_opacity w opacity color).alpha =
      w.alpha.map fun p : ℤ => ratTrunc ((p : ℚ) * opacity) := by
  cases color <;> rfl

/-- Validation sees only dimensions, which opacity adjustment preserves. -/
theorem validate_adjust (t w : Img) (opacity : ℚ) (color : Option (ℤ × ℤ × ℤ)) (p : ℤ) :
    validate_image_and_watermark t (adjust_opacity w opacity color) p =
      validate_image_and_watermark t w p := by
  simp only [validate_image_and_watermark, adjust_opacity_width, adjust_opacity_height]

/-! ## Claims -/

/-- Claim C1: for every base image, overlay image, position among the five
recognized symbols, and padding ≥ 0, if `validate_image_and_watermark`
returns true then the `(x, y)` returned by `calculate_position` satisfies
`x ≥ 0`, `y ≥ 0`, `x + overlay.width ≤ base.width` and
`y + overlay.height ≤ base.height`: the overlay placed at `(x, y)` lies
fully within the base image bounds. -/
theorem calculate_position_within_bounds (t w : Img) (position : WatermarkPosition)
    (padding : ℤ) (hpad : 0 ≤ padding)
    (hval : validate_image_and_watermark t w padding = true) :
    0 ≤ (calculate_position t w position padding).1 ∧
    0 ≤ (calculate_position t w position padding).2 ∧
    (calculate_position t w position padding).1 + w.width ≤ t.width ∧
    (calculate_position t w position padding).2 + w.height ≤ t.height := by
  obtain ⟨h1, h2⟩ := (validate_true_iff t w padding).mp hval
  cases position <;>
    dsimp only [calculate_position] <;>
    refine ⟨?_, ?_, ?_, ?_⟩ <;>
    first
      | omega
      | · rw [Int.fdiv_eq_ediv _ (by norm_num)]
          omega

/-- Witness for C1 at a concrete input: an 800×600 base, a 100×50 overlay,
center position and padding 20. -/
theorem calculate_position_within_bounds_witness :
    0 ≤ (calculate_position (mkImg 800 600) (mkImg 100 50) .CENTER 20).1 ∧
    0 ≤ (calculate_position (mkImg 800 600) (mkImg 100 50) .CENTER 20).2 ∧
    (calculate_position (mkImg 800 600) (mkImg 100 50) .CENTER 20).1 + (mkImg 100 50).width
      ≤ (mkImg 800 600).width ∧
    (calculate_position (mkImg 800 600) (mkImg 100 50) .CENTER 20).2 + (mkImg 100 50).height
      ≤ (mkImg 800 600).height :=
  calculate_position_within_bounds (mkImg 800 600) (mkImg 100 50) .CENTER 20
    (by decide) (by decide)

/-- Claim C2: `validate_image_and_watermark` returns true iff
`base.width ≥ overlay.width + 2p` and `base.height ≥ overlay.height + 2p`,
for every padding; and the boundary case of exact equality on both axes is
valid. -/
theorem validate_image_and_watermark_spec :
    (∀ (t w : Img) (p : ℤ),
      validate_image_and_watermark t w p = true ↔
        w.width + 2 * p ≤ t.width ∧ w.height + 2 * p ≤ t.height) ∧
    (∀ (w : Img) (p : ℤ),
      validate_image_and_watermark (mkImg (w.width + 2 * p) (w.height + 2 * p)) w p = true) := by
  refine ⟨validate_true_iff, fun w p => ?_⟩
  rw [validate_true_iff]
  simp [mkImg]

/-- Claim C3: `calculate_position` implements the spec dispatch table
exactly (bottom-right `(max 0 (bw-ow-p), max 0 (bh-oh-p))`, bottom-left
`(p, max 0 (bh-oh-p))`, top-right `(max 0 (bw-ow-p), p)`, top-left `(p, p)`,
center `(⌊(bw-ow)/2⌋, ⌊(bh-oh)/2⌋)`); in particular on an 800×600 base with
a 100×50 overlay and padding 20, center yields `(350, 275)` and bottom-right
yields `(680, 530)`. -/
theorem calculate_position_matches_spec :
    (∀ (t w : Img) (position : WatermarkPosition) (p : ℤ),
      calculate_position t w position p =
        resolvePosition_spec t.width t.height w.width w.height p position) ∧
    calculate_position (mkImg 800 600) (mkImg 100 50) .CENTER 20 = (350, 275) ∧
    calculate_position (mkImg 800 600) (mkImg 100 50) .BOTTOM_RIGHT 20 = (680, 530) := by
  refine ⟨fun t w position p => ?_, by decide, by decide⟩
  cases position <;> rfl

/-- Claim C4 (amended): the pipeline checks the size constraint against the
overlay dimensions as loaded, before scaling: it fails with the
size-constraint error exactly when `validate_image_and_watermark` on the
pre-scale overlay is false; the scaled overlay is not re-validated. -/
theorem add_watermark_size_error_iff (t w : Img) (opacity : ℚ)
    (position : WatermarkPosition) (padding : ℤ) (scale_r : ℚ)
    (color : Option (ℤ × ℤ × ℤ)) :
    (add_watermark t w opacity position padding scale_r color).2 =
        Except.error Err.sizeConstraint ↔
      validate_image_and_watermark t w padding = false := by
  simp only [add_watermark, validate_adjust]
  by_cases hv : validate_image_and_watermark t w padding = false
  · simp [hv]
  · rw [if_neg hv]
    split <;> simp [hv]

/-- Counterexample for C4 as stated: on a 1000×1000 base with a 1×1 overlay,
padding 499 and scale ratio 1/10, the scaled overlay is 100 wide, so scaled
width plus twice the padding (1098) exceeds the base width, yet the pipeline
does not fail with the size-constraint error: it completes and pastes at
(401, 401). -/
theorem add_watermark_scaled_overflow_ok :
    (add_watermark (mkImg 1000 1000) (mkImg 1 1) 1 .BOTTOM_RIGHT 499 (1/10) none).2 =
        Except.ok ⟨{ mkImg 1 1 with width := 100, height := 100 }, (401, 401)⟩ ∧
    (mkImg 1000 1000).width <
      (scale_watermark (mkImg 1000 1000) (adjust_opacity (mkImg 1 1) 1 none) (1/10)).width
        + 2 * 499 := by
  constructor
  · norm_num [add_watermark, adjust_opacity, validate_image_and_watermark,
      scale_watermark, pilResize, calculate_position, ratTrunc, mkImg]
  · norm_num [scale_watermark, pilResize, adjust_opacity, ratTrunc, mkImg]

/-- Claim C5 (amended): when the size validation passes and the opacity is
outside [0, 1], `add_watermark` fails with the invalid-argument error before
scaling, position computation, compositing and saving — but only after the
target and watermark images have been opened and the out-of-range opacity
has been applied to the alpha channel. -/
theorem add_watermark_invalid_opacity_order (t w : Img) (opacity : ℚ)
    (position : WatermarkPosition) (padding : ℤ) (scale_r : ℚ)
    (color : Option (ℤ × ℤ × ℤ))
    (hop : 1 < opacity ∨ opacity < 0)
    (hval : validate_image_and_watermark t w padding = true) :
    add_watermark t w opacity position padding scale_r color =
      ([Ev.openTarget, Ev.openWatermark, Ev.adjustOpacity],
        Except.error Err.invalidArgument) := by
  have hv : ¬ validate_image_and_watermark t w padding = false := by simp [hval]
  simp only [add_watermark, validate_adjust]
  rw [if_neg hv, if_pos hop]

/-- Witness for the amended C5 at a concrete input: opacity 2 on an 800×600
base with a 100×50 overlay. -/
theorem add_watermark_invalid_opacity_order_witness :
    add_watermark (mkImg 800 600) (mkImg 100 50) 2 .BOTTOM_RIGHT 20 1 none =
      ([Ev.openTarget, Ev.openWatermark, Ev.adjustOpacity],
        Except.error Err.invalidArgument) :=
  add_watermark_invalid_opacity_order (mkImg 800 600) (mkImg 100 50) 2 .BOTTOM_RIGHT 20 1 none
    (Or.inl (by decide)) (by decide)

/-- Counterexample for C5 as stated: with opacity 3/2 the pipeline does fail
with the invalid-argument error, but only after both input images were
opened and after the alpha channel was adjusted (an alpha sample 100 has
already become `int(100 * 1.5) = 150`), contradicting the claim that the
failure precedes any file input and any alpha-channel adjustment. -/
theorem add_watermark_opacity_error_after_load :
    (add_watermark (mkImg 800 600) { mkImg 100 50 with alpha := [100] } (3/2)
        .BOTTOM_RIGHT 20 (1/10) none).2 = Except.error Err.invalidArgument ∧
    Ev.openTarget ∈ (add_watermark (mkImg 800 600) { mkImg 100 50 with alpha := [100] } (3/2)
        .BOTTOM_RIGHT 20 (1/10) none).1 ∧
    Ev.openWatermark ∈ (add_watermark (mkImg 800 600) { mkImg 100 50 with alpha := [100] } (3/2)
        .BOTTOM_RIGHT 20 (1/10) none).1 ∧
    Ev.adjustOpacity ∈ (add_watermark (mkImg 800 600) { mkImg 100 50 with alpha := [100] } (3/2)
        .BOTTOM_RIGHT 20 (1/10) none).1 ∧
    (adjust_opacity { mkImg 100 50 with alpha := [100] } (3/2) none).alpha = [150] := by
  refine ⟨?_, ?_, ?_, ?_, ?_⟩ <;>
    norm_num [add_watermark, adjust_opacity, validate_image_and_watermark,
      ratTrunc, mkImg]

/-- Claim C10: the size check runs before the opacity-range check — when the
base is too small for the unscaled overlay plus padding and the opacity is
out of range, the error is the size-constraint error, not the
invalid-opacity one; and the out-of-range opacity has already been applied
to the alpha channel by `adjust_opacity` (a total function that accepts any
opacity), which preserves the overlay's dimensions. -/
theorem size_check_precedes_opacity_check (t w : Img) (opacity : ℚ)
    (position : WatermarkPosition) (padding : ℤ) (scale_r : ℚ)
    (color : Option (ℤ × ℤ × ℤ))
    (hval : validate_image_and_watermark t w padding = false)
    (_hop : 1 < opacity ∨ opacity < 0) :
    add_watermark t w opacity position padding scale_r color =
      ([Ev.openTarget, Ev.openWatermark, Ev.adjustOpacity],
        Except.error Err.sizeConstraint) ∧
    (adjust_opacity w opacity color).alpha =
      w.alpha.map (fun p : ℤ => ratTrunc ((p : ℚ) * opacity)) ∧
    (adjust_opacity w opacity color).width = w.width ∧
    (adjust_opacity w opacity color).height = w.height := by
  refine ⟨?_, adjust_opacity_alpha w opacity color,
    adjust_opacity_width w opacity color, adjust_opacity_height w opacity color⟩
  simp only [add_watermark, validate_adjust]
  rw [if_pos hval]

/-- Witness for C10 at a concrete input: a 10×10 base, a 100×50 overlay,
padding 20 and opacity 2 — both checks would fire, the size one wins. -/
theorem size_check_precedes_opacity_check_witness :
    add_watermark (mkImg 10 10) (mkImg 100 50) 2 .BOTTOM_RIGHT 20 1 none =
      ([Ev.openTarget, Ev.openWatermark, Ev.adjustOpacity],
        Except.error Err.sizeConstraint) ∧
    (adjust_opacity (mkImg 100 50) 2 none).alpha =
      (mkImg 100 50).alpha.map (fun p : ℤ => ratTrunc ((p : ℚ) * 2)) ∧
    (adjust_opacity (mkImg 100 50) 2 none).width = (mkImg 100 50).width ∧
    (adjust_opacity (mkImg 100 50) 2 none).height = (mkImg 100 50).height :=
  size_check_precedes_opacity_check (mkImg 10 10) (mkImg 100 50) 2 .BOTTOM_RIGHT 20 1 none
    (by decide) (Or.inl (by decide))

/-- Claim C6: `adjust_opacity` multiplies each alpha sample by the opacity
factor and truncates to an integer; consequently opacity 1 leaves the alpha
channel unchanged and opacity 0 makes it all zeros (for any tint color). -/
theorem adjust_opacity_alpha_spec (image : Img) (color : Option (ℤ × ℤ × ℤ)) :
    (∀ opacity : ℚ, (adjust_opacity image opacity color).alpha =
        image.alpha.map fun p : ℤ => ratTrunc ((p : ℚ) * opacity)) ∧
    (adjust_opacity image 1 color).alpha = image.alpha ∧
    (adjust_opacity image 0 color).alpha = image.alpha.map fun _ => (0 : ℤ) := by
  refine ⟨fun opacity => adjust_opacity_alpha image opacity color, ?_, ?_⟩
  · rw [adjust_opacity_alpha]
    have hfun : (fun p : ℤ => ratTrunc ((p : ℚ) * 1)) = fun p : ℤ => p := by
      funext p
      rw [mul_one, ratTrunc_intCast]
    rw [hfun, List.map_id']
  · rw [adjust_opacity_alpha]
    have hfun : (fun p : ℤ => ratTrunc ((p : ℚ) * 0)) = fun _ : ℤ => (0 : ℤ) := by
      funext p
      rw [mul_zero]
      simpa using ratTrunc_intCast 0
    rw [hfun]

/-- Claim C7: `scale_watermark` computes the scaled width as
`⌊min (base.width, base.height) * ratio⌋` — a formula not involving the
overlay's own dimensions — and the scaled height as
`⌊overlay.height * scaled_width / overlay.width⌋`, which preserves the
original aspect ratio within the integer-rounding tolerance (the exact
proportional height lies in `[scaled_height, scaled_height + 1)`). -/
theorem scale_watermark_dimensions (t w : Img) (scale_r : ℚ)
    (htw : 0 ≤ t.width) (hth : 0 ≤ t.height) (hww : 0 < w.width)
    (hwh : 0 ≤ w.height) (hr : 0 ≤ scale_r) :
    (scale_watermark t w scale_r).width = ⌊((min t.width t.height : ℤ) : ℚ) * scale_r⌋ ∧
    (scale_watermark t w scale_r).height =
      ⌊(w.height : ℚ) * ((scale_watermark t w scale_r).width : ℚ) / (w.width : ℚ)⌋ ∧
    (((scale_watermark t w scale_r).height : ℚ)) ≤
      (w.height : ℚ) * ((scale_watermark t w scale_r).width : ℚ) / (w.width : ℚ) ∧
    (w.height : ℚ) * ((scale_watermark t w scale_r).width : ℚ) / (w.width : ℚ) <
      ((scale_watermark t w scale_r).height : ℚ) + 1 := by
  have hmin : (0 : ℚ) ≤ ((min t.width t.height : ℤ) : ℚ) := by
    exact_mod_cast le_min htw hth
  have hprod : (0 : ℚ) ≤ ((min t.width t.height : ℤ) : ℚ) * scale_r :=
    mul_nonneg hmin hr
  have hwidth : (scale_watermark t w scale_r).width =
      ⌊((min t.width t.height : ℤ) : ℚ) * scale_r⌋ := by
    dsimp only [scale_watermark, pilResize]
    rw [ratTrunc_eq_floor hprod]
  have hwnn : (0 : ℚ) ≤ ((scale_watermark t w scale_r).width : ℚ) := by
    rw [hwidth]
    exact_mod_cast Int.floor_nonneg.mpr hprod
  have hq : (0 : ℚ) ≤ (w.height : ℚ) *
      (((scale_watermark t w scale_r).width : ℚ) / (w.width : ℚ)) := by
    refine mul_nonneg (by exact_mod_cast hwh) (div_nonneg hwnn ?_)
    exact_mod_cast le_of_lt hww
  have hheight : (scale_watermark t w scale_r).height =
      ⌊(w.height : ℚ) * ((scale_watermark t w scale_r).width : ℚ) / (w.width : ℚ)⌋ := by
    conv_lhs => dsimp only [scale_watermark, pilResize]
    rw [show ((ratTrunc (((min t.width t.height : ℤ) : ℚ) * scale_r) : ℤ) : ℚ) =
        ((scale_watermark t w scale_r).width : ℚ) by
      dsimp only [scale_watermark, pilResize]]
    rw [ratTrunc_eq_floor hq, mul_div_assoc]
  refine ⟨hwidth, hheight, ?_, ?_⟩
  · rw [hheight]
    exact Int.floor_le _
  · rw [hheight]
    exact Int.lt_floor_add_one _

/-- Witness for C7 at a concrete input: an 800×600 base, a 100×50 overlay
and scale ratio 1. -/
theorem scale_watermark_dimensions_witness :
    (scale_watermark (mkImg 800 600) (mkImg 100 50) 1).width =
      ⌊((min (mkImg 800 600).width (mkImg 800 600).height : ℤ) : ℚ) * 1⌋ ∧
    (scale_watermark (mkImg 800 600) (mkImg 100 50) 1).height =
      ⌊((mkImg 100 50).height : ℚ) *
        ((scale_watermark (mkImg 800 600) (mkImg 100 50) 1).width : ℚ) /
          ((mkImg 100 50).width : ℚ)⌋ ∧
    (((scale_watermark (mkImg 800 600) (mkImg 100 50) 1).height : ℚ)) ≤
      ((mkImg 100 50).height : ℚ) *
        ((scale_watermark (mkImg 800 600) (mkImg 100 50) 1).width : ℚ) /
          ((mkImg 100 50).width : ℚ) ∧
    ((mkImg 100 50).height : ℚ) *
        ((scale_watermark (mkImg 800 600) (mkImg 100 50) 1).width : ℚ) /
          ((mkImg 100 50).width : ℚ) <
      ((scale_watermark (mkImg 800 600) (mkImg 100 50) 1).height : ℚ) + 1 :=
  scale_watermark_dimensions (mkImg 800 600) (mkImg 100 50) 1
    (by decide) (by decide) (by decide) (by decide) zero_le_one

/-- Truncation of a nonpositive rational is nonpositive. -/
theorem ratTrunc_nonpos {q : ℚ} (h : q ≤ 0) : ratTrunc q ≤ 0 := by
  have hn : q.num ≤ 0 := Rat.num_nonpos.mpr h
  have hneg : ratTrunc q = -((-q.num).tdiv (q.den : ℤ)) := by
    rw [ratTrunc, ← Int.neg_tdiv, neg_neg]
  have hpos := Int.tdiv_nonneg (by omega : (0 : ℤ) ≤ -q.num)
    (by positivity : (0 : ℤ) ≤ (q.den : ℤ))
  omega

/-- Claim C8: for every base image (with nonnegative dimensions), overlay
and scale ratio, if the ratio is ≤ 0, or the computed target width
`int(min(bw, bh) * ratio)` is less than 1, then the scale operation fails
with the invalid-argument error: the degenerate target size is rejected by
the resize size check before any resized image is produced, rather than a
zero or negative resize being carried out. -/
theorem scale_watermark_run_degenerate_error (t w : Img) (scale_r : ℚ)
    (htw : 0 ≤ t.width) (hth : 0 ≤ t.height)
    (hdeg : scale_r ≤ 0 ∨ (scale_watermark t w scale_r).width < 1) :
    scale_watermark_run t w scale_r = Except.error Err.invalidArgument := by
  have hw : (scale_watermark t w scale_r).width < 1 := by
    rcases hdeg with hr | hlt
    · have hmin : (0 : ℚ) ≤ ((min t.width t.height : ℤ) : ℚ) := by
        exact_mod_cast le_min htw hth
      have hle : (scale_watermark t w scale_r).width ≤ 0 := by
        dsimp only [scale_watermark, pilResize]
        exact ratTrunc_nonpos (mul_nonpos_of_nonneg_of_nonpos hmin hr)
      omega
    · exact hlt
  have hw' : ratTrunc (((min t.width t.height : ℤ) : ℚ) * scale_r) < 1 := hw
  dsimp only [scale_watermark_run, pilResizeRun]
  rw [if_pos (Or.inl hw')]

/-- Witness for C8 at a concrete input: scale ratio 0 on an 800×600 base
with a 100×50 overlay — the computed target width is 0 and the scale
operation errors. -/
theorem scale_watermark_run_degenerate_error_witness :
    scale_watermark_run (mkImg 800 600) (mkImg 100 50) 0 =
      Except.error Err.invalidArgument :=
  scale_watermark_run_degenerate_error (mkImg 800 600) (mkImg 100 50) 0
    (by decide) (by decide) (Or.inl (le_refl 0))

/-- Claim C9 (amended): the process-wide pre-processed overlay cache has
capacity exactly one and is keyed on the full argument triple
(path, opacity, color): a load whose triple equals the cached key returns
the cached image without reprocessing, a load from an empty cache
processes and stores, and a load with a distinct triple reprocesses and
evicts the previous entry. -/
theorem load_cached_watermark_capacity_one (cache : Option (CacheKey × Img))
    (openImage : ℕ → Img) (path : ℕ) (opacity : ℚ) (color : Option (ℤ × ℤ × ℤ)) :
    (∀ img, cache = some (⟨path, opacity, color⟩, img) →
      load_cached_watermark cache openImage path opacity color = (img, cache, false)) ∧
    (cache = none →
      load_cached_watermark cache openImage path opacity color =
        (adjust_opacity (openImage path) opacity color,
         some (⟨path, opacity, color⟩, adjust_opacity (openImage path) opacity color),
         true)) ∧
    (∀ k img, cache = some (k, img) → k ≠ ⟨path, opacity, color⟩ →
      load_cached_watermark cache openImage path opacity color =
        (adjust_opacity (openImage path) opacity color,
         some (⟨path, opacity, color⟩, adjust_opacity (openImage path) opacity color),
         true)) := by
  refine ⟨fun img hc => ?_, fun hc => ?_, fun k img hc hk => ?_⟩
  · subst hc
    simp [load_cached_watermark]
  · subst hc
    simp [load_cached_watermark]
  · subst hc
    simp [load_cached_watermark, hk]

/-- Witness for the amended C9 at concrete inputs: a hit on the stored
triple returns the cached image without recomputation, and a request with a
different color evicts and recomputes. -/
theorem load_cached_watermark_capacity_one_witness :
    load_cached_watermark (some (⟨0, 1, none⟩, mkImg 5 5)) (fun _ => mkImg 9 9) 0 1 none =
      (mkImg 5 5, some (⟨0, 1, none⟩, mkImg 5 5), false) ∧
    load_cached_watermark (some (⟨0, 1, none⟩, mkImg 5 5)) (fun _ => mkImg 9 9) 0 1
        (some (255, 0, 0)) =
      (adjust_opacity (mkImg 9 9) 1 (some (255, 0, 0)),
       some (⟨0, 1, some (255, 0, 0)⟩, adjust_opacity (mkImg 9 9) 1 (some (255, 0, 0))),
       true) :=
  ⟨(load_cached_watermark_capacity_one (some (⟨0, 1, none⟩, mkImg 5 5))
      (fun _ => mkImg 9 9) 0 1 none).1 (mkImg 5 5) rfl,
   (load_cached_watermark_capacity_one (some (⟨0, 1, none⟩, mkImg 5 5))
      (fun _ => mkImg 9 9) 0 1 (some (255, 0, 0))).2.2 ⟨0, 1, none⟩ (mkImg 5 5) rfl
      (by decide)⟩

/-- Counterexample for C9 as stated: two successive loads with the same path
and the same opacity but different tint colors do not hit the cache — the
second load reprocesses (the recomputation flag is true), because the color
argument participates in the cache key. -/
theorem load_cached_watermark_color_in_key :
    (load_cached_watermark
        (load_cached_watermark none (fun _ => mkImg 10 10) 0 1 none).2.1
        (fun _ => mkImg 10 10) 0 1 (some (255, 0, 0))).2.2 = true := by
  simp only [load_cached_watermark, adjust_opacity, mkImg]
  decide

end Watermarker
